import Mathlib

/-!
# Verification of the Rust-Loadbalancer proxy engine

A shallow embedding of the proxy engine of `Caaams95/Rust-Loadbalancer`
(`src/main.rs`, `src/request.rs`, `src/http_health_checks.rs`) together with
theorems settling the frozen claims about its specification.

Network effects are made explicit: each embedded function takes the outcome of
its I/O operations (connect results, read results, parse results) as data and
returns the values it computes together with the bytes it writes.  Rust panics
(`unwrap` on `None`/`Err`) are modelled by a dedicated `panicked` outcome.
-/

namespace RustLB

/-! ## Selector: `connect_to_upstream_server` (src/main.rs lines 169-191)

```rust
fn connect_to_upstream_server(mut upstream_address_list: Vec<String>)
    -> Result<TcpStream, std::io::Error> {
    let mut rng = rand::thread_rng();
    let upstream_address = upstream_address_list.choose(&mut rng).unwrap();
    match TcpStream::connect(upstream_address) {
        Ok(stream) => Ok(stream),
        Err(e) => {
            if upstream_address_list.is_empty() {
                Err(e)
            } else {
                let index = upstream_address_list.iter()
                    .position(|x| x == upstream_address).unwrap();
                let _ = upstream_address_list.remove(index);
                connect_to_upstream_server(upstream_address_list)
            }
        }
    }
}
```

The environment is modelled by `connects : String → Bool` (does a TCP connect
to that address succeed?) and `rng : Nat → Nat` (the random draw of
`choose` at each recursion depth; `choose` picks index `rng d % length`).
`Vec::choose` returns `None` on an empty vector, so the leading `.unwrap()`
panics there — modelled by the `panicked` outcome. -/

/-- Outcome of `connect_to_upstream_server`: a connected stream to `addr`,
the `Err(e)` branch (returning the last connect error), or a Rust panic. -/
inductive ConnectOutcome where
  | ok (addr : String)
  | connErr
  | panicked
deriving DecidableEq, Repr

/-- Shallow embedding of `connect_to_upstream_server`.  `d` is the recursion
depth, used to index the random draws. -/
def connect_to_upstream_server (connects : String → Bool) (rng : Nat → Nat)
    (d : Nat) (l : List String) : ConnectOutcome :=
  if hl : l = [] then
    .panicked   -- upstream_address_list.choose(&mut rng) is None; .unwrap() panics
  else
    -- choose: a uniformly random element of the non-empty list
    let addr := l.get ⟨rng d % l.length, Nat.mod_lt _ (List.length_pos.mpr hl)⟩
    if connects addr then
      .ok addr
    else if l.isEmpty then
      .connErr   -- dead: l is non-empty here, since choose returned an element
    else
      -- remove the first element equal to the chosen address, retry the rest
      connect_to_upstream_server connects rng (d + 1) (l.eraseIdx (l.indexOf addr))
termination_by l.length
decreasing_by
  have hmem : addr ∈ l := List.get_mem ..
  have hidx : l.indexOf addr < l.length := List.indexOf_lt_length.mpr hmem
  rw [List.length_eraseIdx_of_lt hidx]
  have := List.length_pos.mpr hl
  omega

/-! ## Request pipeline (src/request.rs)

`read_client_request` does a single `read` into a 1024-byte buffer, parses it
with `httparse` using a fixed `[httparse::EMPTY_HEADER; 16]` header array, and
builds an `http::Request` whose version is hardcoded to `HTTP_11` and whose
body is `Vec::<u8>::new()`.  `client_request_builder` copies method/uri/headers
of that request (version again hardcoded, body again empty) and appends one
`X-Forwarded-For: <client-ip>` header.  `write_to_stream` serializes the built
request onto the upstream socket.

The embedding makes the I/O and parse outcomes explicit inputs and returns the
strings written to the client socket alongside the computed result.  Headers
are modelled as an ordered association list, matching the spec's codec model
("header mapping with duplicate-name support preserving insertion order"). -/

/-- `request::Error` (src/request.rs lines 7-18), with the source's variants. -/
inductive Error where
  | MalformedRequest
  | ClientClosedConnection
  | PartialRequest
  | ConnectionError
deriving DecidableEq, Repr

/-- `http::Version` values relevant here, with Rust's `Debug` rendering. -/
inductive Version where
  | HTTP_10
  | HTTP_11
deriving DecidableEq, Repr

/-- Rust `{:?}` formatting of `http::Version`, as used by `format_request_line`. -/
def versionDebugStr : Version → String
  | .HTTP_10 => "HTTP/1.0"
  | .HTTP_11 => "HTTP/1.1"

/-- The structured `http::Request<Vec<u8>>` at the embedding's level of detail. -/
structure HttpRequest where
  method : String
  uri : String
  version : Version
  headers : List (String × String)
  body : List Nat
deriving DecidableEq, Repr

/-- ASCII bytes of a string (all wire strings in this development are ASCII,
where UTF-8 bytes and code points coincide). -/
def strBytes (s : String) : List Nat := s.toList.map Char.toNat

/-- `format_request_line` (src/request.rs line 62):
`format!("{} {} {:?}", request.method(), request.uri(), request.version())`. -/
def format_request_line (r : HttpRequest) : String :=
  r.method ++ " " ++ r.uri ++ " " ++ versionDebugStr r.version

/-- `write_to_stream` (src/request.rs lines 34-47): the byte sequence written
to the upstream socket — request line, CRLF, each header as `name: value`
followed by CRLF, a blank line, then the body (writing an empty body and
skipping the write are indistinguishable on the wire). -/
def write_to_stream (r : HttpRequest) : List Nat :=
  strBytes (format_request_line r) ++ [13, 10]
    ++ (r.headers.map (fun h => strBytes (h.1 ++ ": ") ++ strBytes h.2 ++ [13, 10])).flatten
    ++ [13, 10] ++ r.body

/-- Outcome of `httparse`'s `req.parse(&buffer)` on the single buffer read:
either `Err(...)` (invalid bytes, or `TooManyHeaders` from the fixed 16-slot
header array), or `Ok` with the partial-parse flag and whatever method, path
and headers were recognised. -/
inductive ParseResult where
  | parseFailed
  | parsed (needsMore : Bool) (methodTok : Option String) (pathTok : Option String)
      (headers : List (String × String))
deriving DecidableEq, Repr

/-- Outcome of the single `client_stream.read(&mut buffer)` call together with
the parse of the buffer: an I/O error, a clean close (0 bytes), or data whose
parse produced `p`. -/
inductive ClientRead where
  | readErr
  | closed
  | readData (p : ParseResult)
deriving DecidableEq, Repr

/-- Result of `read_client_request`: a Rust panic (an `unwrap` failed), an
`Err(e)` return, or the successfully built request. -/
inductive ReqOutcome where
  | panicked
  | errored (e : Error)
  | ok (r : HttpRequest)
deriving DecidableEq, Repr

/-- What `read_client_request` did: the strings it itself wrote to the client
socket, and its returned value. -/
structure ReadStepOut where
  clientWrites : List String
  result : ReqOutcome
deriving DecidableEq, Repr

/-- The synthetic 400 response string from src/main.rs line 249 and
src/request.rs line 136. -/
def bad400 : String := "HTTP/1.1 400 Bad Request\r\n\r\n"

/-- The synthetic 502 response string from src/main.rs lines 223 and 262. -/
def bad502 : String := "HTTP/1.1 502 Bad Gateway\r\n\r\n"

/-- `read_client_request` (src/request.rs lines 130-189).  On a read error it
writes a 400 itself and returns `Err(MalformedRequest)`; zero bytes read is
`Err(ClientClosedConnection)`; `req.parse(&buffer).unwrap()` panics on a parse
error; a partial parse returns `Err(PartialRequest)` only when no path was
parsed, otherwise the function falls through and builds the request from
whatever was parsed; `req.method.unwrap()` / `req.path.unwrap()` panic on
`None`.  The built request has version hardcoded to `HTTP_11` and body
`Vec::new()`. -/
def read_client_request : ClientRead → ReadStepOut
  | .readErr => ⟨[bad400], .errored .MalformedRequest⟩
  | .closed => ⟨[], .errored .ClientClosedConnection⟩
  | .readData .parseFailed => ⟨[], .panicked⟩
  | .readData (.parsed needsMore methodTok pathTok headers) =>
    match needsMore, methodTok, pathTok with
    | true, _, none => ⟨[], .errored .PartialRequest⟩
    | _, some m, some p =>
      ⟨[], .ok { method := m, uri := p, version := .HTTP_11, headers := headers, body := [] }⟩
    | _, _, _ => ⟨[], .panicked⟩

/-- `client_request_builder` (src/request.rs lines 207-231): copies method and
uri, hardcodes the version to `HTTP_11`, copies all headers in order, appends
`("X-Forwarded-For", client_ip)`, and sets the body to `Vec::new()`.  The Rust
function wraps this in `Ok(...)` and has no error path. -/
def client_request_builder (client_ip : String) (req : HttpRequest) : HttpRequest :=
  { method := req.method
    uri := req.uri
    version := .HTTP_11
    headers := req.headers ++ [("X-Forwarded-For", client_ip)]
    body := [] }

/-- Result of `request_controller`: panic, `Err(e)`, or `Ok(())`. -/
inductive CtrlResult where
  | panicked
  | errored (e : Error)
  | okUnit
deriving DecidableEq, Repr

/-- What `request_controller` did: client writes, the bytes written to the
upstream socket, and the returned value. -/
structure ControllerOut where
  clientWrites : List String
  upstreamBytes : List Nat
  result : CtrlResult
deriving DecidableEq, Repr

/-- `request_controller` (src/request.rs lines 83-114): read the client
request, build the forwarded request with the client IP, serialize it to the
upstream stream (`upstreamWriteOk` is whether that write succeeds; a failed
write returns `Err(ConnectionError)`). -/
def request_controller (input : ClientRead) (client_ip : String)
    (upstreamWriteOk : Bool) : ControllerOut :=
  let step := read_client_request input
  match step.result with
  | .panicked => ⟨step.clientWrites, [], .panicked⟩
  | .errored e => ⟨step.clientWrites, [], .errored e⟩
  | .ok req =>
    let parsed := client_request_builder client_ip req
    if upstreamWriteOk then
      ⟨step.clientWrites, write_to_stream parsed, .okUnit⟩
    else
      ⟨step.clientWrites, [], .errored .ConnectionError⟩

/-- How the request phase of one `handle_connection` loop iteration ends. -/
inductive SessionEnd where
  | terminatedSilently
  | terminated400
  | panicked
  | proceededToResponse
deriving DecidableEq, Repr

/-- The request phase of one iteration of the `handle_connection` loop
(src/main.rs lines 237-253): dispatch on the `request_controller` result —
`Ok` proceeds to the upstream-response phase, `ClientClosedConnection` and
`ConnectionError` terminate silently, and any other error writes
`HTTP/1.1 400 Bad Request\r\n\r\n` and terminates.  Returns all strings
written to the client during the phase (including those written inside
`read_client_request`) and how the phase ended. -/
def handle_request_phase (input : ClientRead) (client_ip : String)
    (upstreamWriteOk : Bool) : List String × SessionEnd :=
  let c := request_controller input client_ip upstreamWriteOk
  match c.result with
  | .okUnit => (c.clientWrites, .proceededToResponse)
  | .errored .ClientClosedConnection => (c.clientWrites, .terminatedSilently)
  | .errored .ConnectionError => (c.clientWrites, .terminatedSilently)
  | .errored _ => (c.clientWrites ++ [bad400], .terminated400)
  | .panicked => (c.clientWrites, .panicked)

/-- A complete HTTP request as the client put it on the wire: the pieces
`httparse` would recognise in the buffer, plus the client's actual HTTP
version and body bytes (both parsed over or skipped by the code). -/
structure WireRequest where
  method : String
  path : String
  version : Version
  headers : List (String × String)
  body : List Nat
deriving DecidableEq, Repr

/-- `httparse` over a fixed `slots`-element header array, applied to a buffer
holding one complete request: parsing fails with `TooManyHeaders` when the
request carries more headers than slots, and otherwise yields a complete
(non-partial) parse of the request line and headers. -/
def httparse_with_slots (slots : Nat) (w : WireRequest) : ParseResult :=
  if w.headers.length > slots then .parseFailed
  else .parsed false (some w.method) (some w.path) w.headers

/-- End-to-end forwarding function for one complete client request: what
`request_controller` sends upstream is `client_request_builder` applied to the
output of `read_client_request`, which parses with the fixed 16-slot header
array.  `none` when no request is forwarded (panic or error). -/
def forwarded_request (w : WireRequest) (client_ip : String) : Option HttpRequest :=
  match (read_client_request (.readData (httparse_with_slots 16 w))).result with
  | .ok r => some (client_request_builder client_ip r)
  | _ => none

/-- A concrete client request carrying an HTTP/1.0 version and a non-empty
body, used to refute claim C2. -/
def wireWithBody : WireRequest :=
  { method := "POST"
    path := "/submit"
    version := .HTTP_10
    headers := [("host", "example.com")]
    body := strBytes "hello" }

/-- Number of occurrences of header `name` in an ordered header list. -/
def countHeader (name : String) (hs : List (String × String)) : Nat :=
  (hs.filter (fun h => h.1 == name)).length

/-- A concrete partial parse (`res.is_partial()` true) in which the request
line — and hence the path — was already recognised, used to refute claim C6. -/
def partialWithPath : ParseResult :=
  .parsed true (some "GET") (some "/images/kitten") [("host", "example.com")]

/-- A concrete request with 17 headers for the C10 witness. -/
def wireManyHeaders : WireRequest :=
  { method := "GET"
    path := "/"
    version := .HTTP_11
    headers := (List.range 17).map (fun i => ("h" ++ toString i, "v"))
    body := [] }

/-! ## Upstream Registry: `ProxyState` and the health-check task
(src/main.rs lines 107-135, 318-323 and 333-362)

The health-check task loops: lock the state, `active_upstream_addresses.clear()`,
then for each `ip` in `upstream_addresses.clone()` push `ip` when
`basic_http_health_check(ip, path)` returns `Ok`.  The probe outcome for a
sweep is modelled by `healthy : String → Bool`. -/

/-- `ProxyState` (src/main.rs lines 109-135). -/
structure ProxyState where
  active_health_check_interval : Nat
  active_health_check_path : String
  upstream_addresses : List String
  active_upstream_addresses : List String
deriving DecidableEq, Repr

/-- The `ProxyState` value built in `main` (src/main.rs lines 318-323):
`active_upstream_addresses` starts as `Vec::new()`. -/
def initial_proxy_state (interval : Nat) (path : String)
    (upstreams : List String) : ProxyState :=
  { active_health_check_interval := interval
    active_health_check_path := path
    upstream_addresses := upstreams
    active_upstream_addresses := [] }

/-- One iteration of the health-check task body (src/main.rs lines 336-352):
clear the active list, then push every configured upstream whose probe
succeeded, in configuration order. -/
def health_check_sweep (healthy : String → Bool) (s : ProxyState) : ProxyState :=
  { s with active_upstream_addresses :=
      s.upstream_addresses.foldl (fun acc ip => if healthy ip then acc ++ [ip] else acc) [] }

/-- States of the proxy reachable from startup with configuration
`(interval, path, upstreams)`: the initial state, and any state obtained from
a reachable one by a health-check sweep with some probe outcome. -/
inductive ReachableState (interval : Nat) (path : String) (upstreams : List String) :
    ProxyState → Prop where
  | init : ReachableState interval path upstreams (initial_proxy_state interval path upstreams)
  | sweep (healthy : String → Bool) (s : ProxyState) :
      ReachableState interval path upstreams s →
      ReachableState interval path upstreams (health_check_sweep healthy s)

/-! ## Connection Acceptor (src/main.rs lines 365-378)

```rust
tokio::spawn(async move {
    loop {
        let shared_state = thread_state_connection.clone();
        for stream in listener.incoming() {
            if let Ok(stream) = stream {
                handle_connection(stream, shared_state.clone()).await;
            }
        }
    }
});
```

A single task runs the accept loop, and `handle_connection(..).await` is
awaited *inside* the `for` iteration: the next `listener.incoming()` item is
taken only after the previous connection's relay loop has returned.  The trace
model below mirrors that sequential structure: connection `i` contributes its
acceptance event followed by all of its relay-loop events (abstracted as a
count `n` of events `relayed i 0 .. relayed i (n-1)`), and only then does the
loop move to connection `i + 1`. -/

/-- Events observable in the acceptor task's trace. -/
inductive AcceptEvent where
  | accepted (idx : Nat)
  | relayed (idx : Nat) (step : Nat)
deriving DecidableEq, Repr

/-- The acceptor task's trace starting at connection index `i`, given the
number of relay-loop events of each incoming connection, as produced by the
sequential `await` in the accept loop. -/
def accept_loop_from (i : Nat) : List Nat → List AcceptEvent
  | [] => []
  | n :: rest =>
    (AcceptEvent.accepted i :: (List.range n).map (AcceptEvent.relayed i))
      ++ accept_loop_from (i + 1) rest

/-- The acceptor task's trace over all incoming connections. -/
def accept_loop (conns : List Nat) : List AcceptEvent := accept_loop_from 0 conns

/-! ## Health Prober (src/http_health_checks.rs)

`basic_http_health_check(upstream_ip, path)` connects a fresh `TcpStream` and
calls `simple_get_request`, which writes
`GET <path> HTTP/1.1\r\nHost: localhost\r\n\r\n`, does one `read` into a
1024-byte buffer, lossily decodes it, and succeeds iff the decoded text
`contains("200 OK")`.  Every failure (connect, write, read, or the substring
missing) is `Err`.  The network behaviour is the explicit input `ProbeEnv`. -/

/-- Does `l` start with the byte sequence `p`? -/
def startsWithSeq : List Nat → List Nat → Bool
  | [], _ => true
  | _ :: _, [] => false
  | p :: ps, x :: xs => (p == x) && startsWithSeq ps xs

/-- Does `l` contain the byte sequence `pat` as a contiguous subsequence?
This is Rust's `str::contains` for an ASCII pattern: `"200 OK"` is pure
ASCII, `String::from_utf8_lossy` maps ASCII bytes to themselves and never
produces ASCII characters from invalid sequences, so `contains` on the lossy
decoding coincides with this byte-level search. -/
def containsSeq (pat : List Nat) : List Nat → Bool
  | [] => pat.isEmpty
  | x :: xs => startsWithSeq pat (x :: xs) || containsSeq pat xs

/-- The ASCII bytes of `"200 OK"`, the substring `simple_get_request` looks
for (src/http_health_checks.rs line 149). -/
def ok200Bytes : List Nat := strBytes "200 OK"

/-- The probe request line written by `simple_get_request`
(src/http_health_checks.rs line 140):
`format!("GET {} HTTP/1.1\r\nHost: localhost\r\n\r\n", path)`. -/
def simple_get_request_string (path : String) : String :=
  "GET " ++ path ++ " HTTP/1.1\r\nHost: localhost\r\n\r\n"

/-- Network behaviour seen by one probe: the connect fails, the request write
fails, the response read fails, or the read returns these bytes. -/
inductive ProbeEnv where
  | connectFail
  | writeFail
  | readFail
  | response (bytes : List Nat)
deriving DecidableEq, Repr

/-- What the probe did: the request string whose write was attempted on the
fresh connection (`none` when the connect already failed), and whether the
probe returned `Ok` (healthy). -/
structure ProbeOut where
  attemptedWrite : Option String
  healthy : Bool
deriving DecidableEq, Repr

/-- `basic_http_health_check` composed with `simple_get_request`
(src/http_health_checks.rs lines 81-106 and 135-154): healthy iff connect,
write and read all succeed and the first read's bytes contain `"200 OK"`
anywhere. -/
def basic_http_health_check (env : ProbeEnv) (path : String) : ProbeOut :=
  match env with
  | .connectFail => ⟨none, false⟩
  | .writeFail => ⟨some (simple_get_request_string path), false⟩
  | .readFail => ⟨some (simple_get_request_string path), false⟩
  | .response bytes => ⟨some (simple_get_request_string path), containsSeq ok200Bytes bytes⟩

/-- Spec-side predicate, following the spec's words for claim C4: "declares
`healthy` iff the response's status line indicates 200" — the status line is
the first CRLF-terminated line and its status code is its second
space-separated token. -/
def spec_status_line_indicates_200 (resp : List Nat) : Bool :=
  let line := resp.takeWhile (fun b => b != 13)
  ((line.dropWhile (fun b => b != 32)).drop 1).takeWhile (fun b => b != 32)
    == strBytes "200"

/-! ## Relaying the upstream response (src/main.rs lines 257-276)

```rust
let mut upstream_response = String::new();
match upstream_stream.read_to_string(&mut upstream_response) {
    Ok(_) => (),
    Err(_) => {
        let response = "HTTP/1.1 502 Bad Gateway\r\n\r\n";
        client_stream.write(response.as_bytes()).unwrap();
        return;
    }
}
match client_stream.write_all(upstream_response.as_bytes()) { ... }
```

`Read::read_to_string` fails with `InvalidData` when the bytes read are not
valid UTF-8, so the response is relayed only when it is valid UTF-8 text, and
invalid bytes yield a 502 and termination.  UTF-8 validity is embedded by a
full RFC 3629 decoder (rejecting overlong forms, surrogates and code points
above U+10FFFF, exactly as Rust's `str::from_utf8` does), and the relayed
bytes `upstream_response.as_bytes()` are the re-encoding of the decoded code
points. -/

/-- Is `c` a UTF-8 continuation byte (`10xxxxxx`)? -/
def contByte (c : Nat) : Bool := 0x80 ≤ c && c ≤ 0xBF

/-- Decode one UTF-8-encoded code point from the front of `l` (RFC 3629, as
Rust's `str::from_utf8` does): the code point and the remaining bytes, or
`none` when the front of `l` is not a valid encoding — overlong forms
(`0xC0`/`0xC1` lead bytes, `0xE0` with a low second byte, `0xF0` with a low
second byte), surrogate code points (`0xED` with a high second byte), values
above U+10FFFF (`0xF4` with a high second byte, lead bytes above `0xF4`),
truncated sequences and stray continuation bytes are all rejected. -/
def utf8DecodeOne : List Nat → Option (Nat × List Nat)
  | [] => none
  | b :: rest =>
    if b ≤ 0x7F then
      some (b, rest)
    else if 0xC2 ≤ b && b ≤ 0xDF then
      match rest with
      | c1 :: r =>
        if contByte c1 then some ((b - 0xC0) * 0x40 + (c1 - 0x80), r) else none
      | [] => none
    else if 0xE0 ≤ b && b ≤ 0xEF then
      match rest with
      | c1 :: c2 :: r =>
        if contByte c1 && contByte c2
            && (b != 0xE0 || 0xA0 ≤ c1) && (b != 0xED || c1 ≤ 0x9F) then
          some ((b - 0xE0) * 0x1000 + (c1 - 0x80) * 0x40 + (c2 - 0x80), r)
        else none
      | _ => none
    else if 0xF0 ≤ b && b ≤ 0xF4 then
      match rest with
      | c1 :: c2 :: c3 :: r =>
        if contByte c1 && contByte c2 && contByte c3
            && (b != 0xF0 || 0x90 ≤ c1) && (b != 0xF4 || c1 ≤ 0x8F) then
          some ((b - 0xF0) * 0x40000 + (c1 - 0x80) * 0x1000
            + (c2 - 0x80) * 0x40 + (c3 - 0x80), r)
        else none
      | _ => none
    else none

/-- Iterate `utf8DecodeOne` over the whole input.  The fuel argument only
bounds the recursion; `utf8DecodeOne` always consumes at least one byte
(`utf8DecodeOne_shrinks`), so fuel `l.length` as supplied by `utf8Decode?` is
never exhausted. -/
def utf8DecodeLoop : Nat → List Nat → Option (List Nat)
  | _, [] => some []
  | 0, _ :: _ => none
  | fuel + 1, b :: rest =>
    match utf8DecodeOne (b :: rest) with
    | some (cp, r) => (utf8DecodeLoop fuel r).map (fun cs => cp :: cs)
    | none => none

/-- RFC 3629 UTF-8 decoder: the code points of `l`, or `none` when `l` is not
valid UTF-8. -/
def utf8Decode? (l : List Nat) : Option (List Nat) := utf8DecodeLoop l.length l

/-- UTF-8 encoding of a single code point. -/
def utf8EncodeChar (cp : Nat) : List Nat :=
  if cp ≤ 0x7F then [cp]
  else if cp ≤ 0x7FF then [0xC0 + cp / 0x40, 0x80 + cp % 0x40]
  else if cp ≤ 0xFFFF then
    [0xE0 + cp / 0x1000, 0x80 + cp / 0x40 % 0x40, 0x80 + cp % 0x40]
  else
    [0xF0 + cp / 0x40000, 0x80 + cp / 0x1000 % 0x40, 0x80 + cp / 0x40 % 0x40,
      0x80 + cp % 0x40]

/-- UTF-8 encoding of a code-point sequence (`String::as_bytes`). -/
def utf8Encode (cps : List Nat) : List Nat := (cps.map utf8EncodeChar).flatten

/-- `Read::read_to_string` on the full upstream response: the string (as code
points) when the bytes are valid UTF-8, `none` (an `InvalidData` error)
otherwise. -/
def read_to_string (bytes : List Nat) : Option (List Nat) := utf8Decode? bytes

/-- Outcome of the response phase of one `handle_connection` loop iteration. -/
inductive RelayOutcome where
  | relayedToClient (bytes : List Nat)
  | sent502Terminated
deriving DecidableEq, Repr

/-- The response phase of one `handle_connection` loop iteration (src/main.rs
lines 257-276): `read_to_string` the upstream response; on error write
`HTTP/1.1 502 Bad Gateway\r\n\r\n` and return, otherwise `write_all` the
string's bytes to the client and continue the loop. -/
def forward_upstream_response (bytes : List Nat) : RelayOutcome :=
  match read_to_string bytes with
  | some cps => .relayedToClient (utf8Encode cps)
  | none => .sent502Terminated


/-! ## Helper lemmas and claim theorems -/
/-- The chosen element is a member of the list, so removing its first
occurrence strictly shrinks the list; this is the induction workhorse. -/
theorem connect_panics_of_all_fail (connects : String → Bool) (rng : Nat → Nat) :
    ∀ (n : Nat) (l : List String), l.length ≤ n →
      (∀ a ∈ l, connects a = false) →
      ∀ d, connect_to_upstream_server connects rng d l = .panicked := by
  intro n
  induction n with
  | zero =>
    intro l hlen _ d
    have : l = [] := List.length_eq_zero.mp (Nat.le_zero.mp hlen)
    subst this
    rw [connect_to_upstream_server]
    simp
  | succ n ih =>
    intro l hlen hfail d
    by_cases hl : l = []
    · subst hl
      rw [connect_to_upstream_server]
      simp
    · rw [connect_to_upstream_server]
      simp only [hl, dite_false]
      have hmem : l.get ⟨rng d % l.length, Nat.mod_lt _ (List.length_pos.mpr hl)⟩ ∈ l :=
        List.get_mem ..
      rw [hfail _ hmem]
      have hne : l.isEmpty = false := by
        simp [List.isEmpty_iff, hl]
      simp only [hne, Bool.false_eq_true, if_false]
      have hidx : l.indexOf (l.get ⟨rng d % l.length, Nat.mod_lt _ (List.length_pos.mpr hl)⟩) < l.length :=
        List.indexOf_lt_length.mpr hmem
      apply ih
      · rw [List.length_eraseIdx_of_lt hidx]
        omega
      · intro a ha
        exact hfail a (List.eraseIdx_subset _ _ ha)

/-- Claim C1: the claim states that selecting from an empty candidate list, and
selecting from a list where every TCP connect fails, both return the
`NoUpstreamAvailable` error which the relay loop surfaces as a synthetic 502.
The code instead panics: `upstream_address_list.choose(&mut rng).unwrap()`
panics on the empty list, and the all-fail recursion removes each failed
address until it reaches the empty list and panics there; the `Err(e)` branch
is guarded by `is_empty()` at a point where the list is provably non-empty, so
no error value is ever returned.  This theorem evaluates the embedded code on
every exhausted candidate list (the empty list is the vacuous case): the
outcome is always `panicked`, never the claimed error return. -/
theorem connect_exhaustion_never_returns_error (connects : String → Bool) (rng : Nat → Nat)
    (d : Nat) (l : List String) (h : ∀ a ∈ l, connects a = false) :
    connect_to_upstream_server connects rng d l = .panicked :=
  connect_panics_of_all_fail connects rng l.length l (Nat.le_refl _) h d

/-- Witness for C1: the selector panics on the concrete empty list and on a
concrete two-element list whose connect attempts all fail. -/
theorem connect_exhaustion_never_returns_error_witness :
    (∀ a ∈ ["127.0.0.1:9001", "127.0.0.1:9002"], (fun (_ : String) => false) a = false) ∧
    connect_to_upstream_server (fun _ => false) (fun _ => 0) 0
      ["127.0.0.1:9001", "127.0.0.1:9002"] = .panicked ∧
    connect_to_upstream_server (fun _ => false) (fun _ => 0) 0 [] = .panicked :=
  ⟨fun _ _ => rfl,
   connect_exhaustion_never_returns_error _ _ 0 _ (fun _ _ => rfl),
   connect_exhaustion_never_returns_error _ _ 0 _ (fun _ h => absurd h (List.not_mem_nil _))⟩

/-- Counterexample to claim C2: the claim states that method, target URI, HTTP
version, headers and body are reissued to the upstream unchanged apart from
the appended `X-Forwarded-For` header.  For the concrete HTTP/1.0 request with
body `"hello"`, the forwarded request carries version `HTTP/1.1` (hardcoded in
both `read_client_request` and `client_request_builder`) and an empty body
(both builders end with `.body(Vec::<u8>::new())`), so neither the version nor
the body is reissued unchanged. -/
theorem forwarded_request_changes_version_and_drops_body :
    (forwarded_request wireWithBody "9.9.9.9:1234").map HttpRequest.version
      = some Version.HTTP_11 ∧
    wireWithBody.version = Version.HTTP_10 ∧
    (forwarded_request wireWithBody "9.9.9.9:1234").map HttpRequest.body = some [] ∧
    wireWithBody.body ≠ [] := by
  refine ⟨rfl, rfl, rfl, ?_⟩
  decide

/-- Claim C2 (amended): for every complete client request that parses within
the 16-slot header array, the forwarded request reissues the method, target
URI and headers unchanged with the client's `X-Forwarded-For` appended, but
the version is always rewritten to HTTP/1.1 and the body is always replaced by
an empty body — the client's request body is never forwarded. -/
theorem forwarded_request_characterisation (w : WireRequest) (ip : String)
    (h : w.headers.length ≤ 16) :
    forwarded_request w ip = some
      { method := w.method
        uri := w.path
        version := .HTTP_11
        headers := w.headers ++ [("X-Forwarded-For", ip)]
        body := [] } := by
  unfold forwarded_request httparse_with_slots
  rw [if_neg (by omega)]
  rfl

/-- Witness for the amended C2: a concrete GET request with one header. -/
theorem forwarded_request_characterisation_witness :
    ([("host", "example.com")] : List (String × String)).length ≤ 16 ∧
    forwarded_request
      (WireRequest.mk "GET" "/index.html" .HTTP_11 [("host", "example.com")] [])
      "5.6.7.8:4242"
      = some (HttpRequest.mk "GET" "/index.html" .HTTP_11
          [("host", "example.com"), ("X-Forwarded-For", "5.6.7.8:4242")] []) :=
  ⟨by decide,
   forwarded_request_characterisation
     (WireRequest.mk "GET" "/index.html" .HTTP_11 [("host", "example.com")] [])
     "5.6.7.8:4242" (by decide)⟩

/-- Counterexample to claim C3: the claim states that a request failing to
read or parse (`MalformedRequest`) is answered with exactly one synthetic
`HTTP/1.1 400 Bad Request\r\n\r\n` response.  On a client-stream read error —
the only path that produces `Error::MalformedRequest` — the 400 string is
written twice: once inside `read_client_request` (src/request.rs line 137) and
once more by the `Err(_)` arm of `handle_connection` (src/main.rs line 250). -/
theorem malformed_request_double_400 :
    (read_client_request .readErr).result = .errored .MalformedRequest ∧
    handle_request_phase .readErr "1.2.3.4:5678" true = ([bad400, bad400], .terminated400) ∧
    ([bad400, bad400] : List String) ≠ [bad400] := by
  refine ⟨rfl, rfl, ?_⟩
  decide

/-- Claim C3 (amended): a client-stream read error (the only producer of
`MalformedRequest`) terminates the session after writing the synthetic 400
response twice; a request whose bytes fail HTTP parsing makes
`req.parse(&buffer).unwrap()` panic, so no response at all is written; a
partial request without a parsed path is answered with a single 400. -/
theorem malformed_request_responses (ip : String) (wOk : Bool)
    (m? : Option String) (hs : List (String × String)) :
    handle_request_phase .readErr ip wOk = ([bad400, bad400], .terminated400) ∧
    handle_request_phase (.readData .parseFailed) ip wOk = ([], .panicked) ∧
    handle_request_phase (.readData (.parsed true m? none hs)) ip wOk
      = ([bad400], .terminated400) := by
  refine ⟨rfl, rfl, ?_⟩
  cases m? <;> rfl

/-- Claim C5: `client_request_builder` appends `("X-Forwarded-For", client_ip)`
after all existing headers of every forwarded request and never replaces an
existing value: the output header list is exactly the input list followed by
the appended header, the `X-Forwarded-For` occurrence count rises by exactly
one (so a request already carrying one occurrence yields two, original first),
and the appended client IP is the last header. -/
theorem xff_appended_never_replaced (req : HttpRequest) (ip : String) :
    (client_request_builder ip req).headers = req.headers ++ [("X-Forwarded-For", ip)] ∧
    countHeader "X-Forwarded-For" (client_request_builder ip req).headers
      = countHeader "X-Forwarded-For" req.headers + 1 ∧
    (client_request_builder ip req).headers.getLast? = some ("X-Forwarded-For", ip) := by
  refine ⟨rfl, ?_, ?_⟩
  · simp [countHeader, client_request_builder, List.filter_append]
  · simp [client_request_builder]

/-- Counterexample to claim C6: the claim states that every partial
(needs-more-data) client request is treated as a malformed-request failure —
400 to the client, session terminated, never forwarded.  But the partial
branch of `read_client_request` returns `Err(PartialRequest)` only when
`req.path` is `None`; for the concrete partial request whose path was already
parsed the code falls through, builds the request from the bytes parsed so
far, and forwards it upstream with no 400. -/
theorem partial_request_is_forwarded :
    (request_controller (.readData partialWithPath) "5.6.7.8:2222" true).result = .okUnit ∧
    (request_controller (.readData partialWithPath) "5.6.7.8:2222" true).upstreamBytes ≠ [] ∧
    handle_request_phase (.readData partialWithPath) "5.6.7.8:2222" true
      = ([], .proceededToResponse) := by
  refine ⟨rfl, ?_, rfl⟩
  decide

/-- Claim C6 (amended): a partial client request is treated as a
malformed-request failure (a single 400 and termination, no multi-read
reassembly) only when its path has not yet been parsed; a partial request
whose request-line path was parsed is instead forwarded to the upstream,
built from whatever method, path and headers the single buffer read produced. -/
theorem partial_request_handling (m p ip : String) (m? : Option String)
    (hs : List (String × String)) :
    (request_controller (.readData (.parsed true (some m) (some p) hs)) ip true).result
      = .okUnit ∧
    (request_controller (.readData (.parsed true (some m) (some p) hs)) ip true).upstreamBytes
      = write_to_stream (client_request_builder ip
          { method := m, uri := p, version := .HTTP_11, headers := hs, body := [] }) ∧
    handle_request_phase (.readData (.parsed true m? none hs)) ip true
      = ([bad400], .terminated400) := by
  refine ⟨rfl, rfl, ?_⟩
  cases m? <;> rfl

/-- Claim C10: a client request with more than 16 header fields is never
forwarded to the upstream: `httparse` with the fixed
`[httparse::EMPTY_HEADER; 16]` array fails with `TooManyHeaders`, so
`req.parse(&buffer).unwrap()` panics before the forwarding step — nothing is
written to the upstream socket and no forwarded request exists. -/
theorem too_many_headers_never_forwarded (w : WireRequest) (ip : String) (wOk : Bool)
    (h : w.headers.length > 16) :
    (request_controller (.readData (httparse_with_slots 16 w)) ip wOk).upstreamBytes = [] ∧
    (request_controller (.readData (httparse_with_slots 16 w)) ip wOk).result
      = .panicked ∧
    forwarded_request w ip = none := by
  unfold httparse_with_slots
  rw [if_pos h]
  refine ⟨rfl, rfl, ?_⟩
  unfold forwarded_request httparse_with_slots
  rw [if_pos h]
  rfl

/-- Witness for C10: the 17-header request is not forwarded. -/
theorem too_many_headers_never_forwarded_witness :
    wireManyHeaders.headers.length > 16 ∧ forwarded_request wireManyHeaders "1.1.1.1:1" = none :=
  ⟨by decide,
   (too_many_headers_never_forwarded wireManyHeaders "1.1.1.1:1" true (by decide)).2.2⟩

/-- The clear-then-push loop computes exactly the filter of the configured
list by the probe outcome. -/
theorem sweep_foldl_eq_filter (healthy : String → Bool) (l : List String) :
    ∀ acc, l.foldl (fun acc ip => if healthy ip then acc ++ [ip] else acc) acc
      = acc ++ l.filter healthy := by
  induction l with
  | nil => intro acc; simp
  | cons b bs ih =>
    intro acc
    by_cases hb : healthy b
    · simp [List.foldl_cons, hb, ih, List.filter_cons]
    · simp [List.foldl_cons, hb, ih, List.filter_cons]

/-- Claim C7: at every reachable state — initially and after every
health-check sweep — `active_upstream_addresses` is a subset of the configured
`upstream_addresses`; the configured list itself is never mutated; and every
refresh fully replaces the active list with exactly the configured upstreams
whose probe succeeded (a clear-then-repopulate filter), so the snapshot never
contains an address outside the originally configured set. -/
theorem active_upstreams_subset_invariant (interval : Nat) (path : String)
    (upstreams : List String) (s : ProxyState)
    (hs : ReachableState interval path upstreams s) :
    s.active_upstream_addresses ⊆ s.upstream_addresses ∧
    s.upstream_addresses = upstreams ∧
    ∀ healthy, (health_check_sweep healthy s).active_upstream_addresses
      = s.upstream_addresses.filter healthy := by
  induction hs with
  | init =>
    refine ⟨by simp [initial_proxy_state], rfl, ?_⟩
    intro healthy
    simp [health_check_sweep, initial_proxy_state, sweep_foldl_eq_filter]
  | sweep healthy s hr ih =>
    refine ⟨?_, ih.2.1, ?_⟩
    · simp only [health_check_sweep, sweep_foldl_eq_filter, List.nil_append]
      exact fun a ha => List.mem_of_mem_filter ha
    · intro h2
      simp [health_check_sweep, sweep_foldl_eq_filter]

/-- Witness for C7: the invariant instantiated at the initial state of the
concrete configuration from the spec's end-to-end scenario, and at the state
after one sweep in which only the first upstream is healthy. -/
theorem active_upstreams_subset_invariant_witness :
    ((initial_proxy_state 5 "/healthz" ["127.0.0.1:9001", "127.0.0.1:9002"]).active_upstream_addresses
      ⊆ ["127.0.0.1:9001", "127.0.0.1:9002"] ∧
     (initial_proxy_state 5 "/healthz" ["127.0.0.1:9001", "127.0.0.1:9002"]).upstream_addresses
      = ["127.0.0.1:9001", "127.0.0.1:9002"] ∧
     ∀ healthy, (health_check_sweep healthy
        (initial_proxy_state 5 "/healthz" ["127.0.0.1:9001", "127.0.0.1:9002"])).active_upstream_addresses
      = ["127.0.0.1:9001", "127.0.0.1:9002"].filter healthy) ∧
    (health_check_sweep (fun a => a == "127.0.0.1:9001")
      (initial_proxy_state 5 "/healthz" ["127.0.0.1:9001", "127.0.0.1:9002"])).active_upstream_addresses
      = ["127.0.0.1:9001"] :=
  ⟨by
     have h := active_upstreams_subset_invariant 5 "/healthz"
       ["127.0.0.1:9001", "127.0.0.1:9002"] _ ReachableState.init
     exact h,
   by decide⟩

/-- Claim C8: the claim states that every accepted connection's relay loop is
dispatched to its own concurrent execution context, so the acceptor can accept
connection 2 while connection 1's relay loop is still running.  The code
instead awaits `handle_connection` inline inside the single spawned accept
task: the trace of two incoming connections is fully sequential — connection 1
is accepted only after every relay event of connection 0 has completed, so
acceptance and relaying are not decoupled. -/
theorem accept_loop_is_sequential (n₀ n₁ : Nat) :
    accept_loop [n₀, n₁]
      = [AcceptEvent.accepted 0] ++ (List.range n₀).map (AcceptEvent.relayed 0)
        ++ [AcceptEvent.accepted 1] ++ (List.range n₁).map (AcceptEvent.relayed 1) := by
  simp [accept_loop, accept_loop_from]

/-- Counterexample to claim C4: the claim states the prober returns healthy
iff the response's status line indicates 200.  The code instead checks
`response.contains("200 OK")` over the whole buffer: a 404 response whose body
happens to contain the text `200 OK` is declared healthy, and a genuine 200
response whose status line lacks the literal reason phrase `OK`
(`HTTP/1.1 200\r\n\r\n`) is declared unhealthy. -/
theorem probe_ignores_status_line :
    (basic_http_health_check
        (.response (strBytes "HTTP/1.1 404 Not Found\r\n\r\nretry in 200 OK time")) "/").healthy
      = true ∧
    spec_status_line_indicates_200
        (strBytes "HTTP/1.1 404 Not Found\r\n\r\nretry in 200 OK time") = false ∧
    (basic_http_health_check (.response (strBytes "HTTP/1.1 200\r\n\r\n")) "/").healthy
      = false ∧
    spec_status_line_indicates_200 (strBytes "HTTP/1.1 200\r\n\r\n") = true := by
  decide

/-- Claim C4 (amended): `probe(address, path)` opens a fresh connection and
sends `GET <path> HTTP/1.1\r\nHost: localhost\r\n\r\n`; any connection
failure, write failure or read failure returns unhealthy, and with a response
it returns healthy iff the bytes of the single buffered read contain the
substring `200 OK` anywhere — not only in the status line. -/
theorem probe_characterisation (path : String) (bytes : List Nat) :
    (basic_http_health_check .connectFail path).healthy = false ∧
    (basic_http_health_check .writeFail path).healthy = false ∧
    (basic_http_health_check .readFail path).healthy = false ∧
    (basic_http_health_check (.response bytes) path).healthy
      = containsSeq ok200Bytes bytes ∧
    (basic_http_health_check (.response bytes) path).attemptedWrite
      = some (simple_get_request_string path) ∧
    (basic_http_health_check .connectFail path).attemptedWrite = none :=
  ⟨rfl, rfl, rfl, rfl, rfl, rfl⟩

/-- Whenever `utf8DecodeOne` succeeds it consumes at least one byte. -/
theorem utf8DecodeOne_shrinks : ∀ {l : List Nat} {cp : Nat} {r : List Nat},
    utf8DecodeOne l = some (cp, r) → r.length < l.length := by
  intro l cp r h
  match l with
  | [] => simp [utf8DecodeOne] at h
  | b :: rest =>
    simp only [utf8DecodeOne] at h
    repeat' split at h
    all_goals try exact Option.noConfusion h
    all_goals
      (simp only [Option.some.injEq, Prod.mk.injEq] at h
       obtain ⟨rfl, rfl⟩ := h
       try simp only [List.length_cons]
       omega)

/-- Re-encoding a decoded code point reproduces exactly the consumed bytes. -/
theorem utf8DecodeOne_encodes : ∀ {l : List Nat} {cp : Nat} {r : List Nat},
    utf8DecodeOne l = some (cp, r) → utf8EncodeChar cp ++ r = l := by
  intro l cp r h
  match l with
  | [] => simp [utf8DecodeOne] at h
  | b :: rest =>
    simp only [utf8DecodeOne] at h
    repeat' split at h
    all_goals try exact Option.noConfusion h
    all_goals
      (simp only [Option.some.injEq, Prod.mk.injEq] at h
       obtain ⟨rfl, rfl⟩ := h
       try simp only [contByte, Bool.and_eq_true, decide_eq_true_eq, bne_iff_ne, ne_eq,
         Bool.or_eq_true] at *
       rw [utf8EncodeChar]
       split_ifs)
    all_goals
      first
      | (exfalso; omega)
      | (simp only [List.cons_append, List.nil_append, List.cons.injEq,
           eq_self_iff_true, and_true, true_and]
         try omega)

/-- The fuel of `utf8DecodeLoop` is irrelevant as long as it is at least the
input length, so `utf8Decode?`'s choice of `l.length` loses nothing. -/
theorem utf8DecodeLoop_fuel : ∀ (f g : Nat) (l : List Nat),
    l.length ≤ f → l.length ≤ g → utf8DecodeLoop f l = utf8DecodeLoop g l := by
  intro f
  induction f with
  | zero =>
    intro g l hf _
    have : l = [] := List.length_eq_zero.mp (Nat.le_zero.mp hf)
    subst this
    cases g <;> rfl
  | succ n ih =>
    intro g l hf hg
    match l with
    | [] => cases g <;> rfl
    | b :: rest =>
      match g with
      | 0 => exact absurd hg (by simp)
      | g' + 1 =>
        simp only [utf8DecodeLoop]
        cases hone : utf8DecodeOne (b :: rest) with
        | none => rfl
        | some pr =>
          obtain ⟨cp, r⟩ := pr
          have hlt := utf8DecodeOne_shrinks hone
          simp only [List.length_cons] at hlt hf hg
          simp only [ih g' r (by omega) (by omega)]

/-- Round trip through the loop: a successful decode re-encodes to the
original bytes. -/
theorem utf8DecodeLoop_encode : ∀ (fuel : Nat) (l cps : List Nat),
    utf8DecodeLoop fuel l = some cps → utf8Encode cps = l := by
  intro fuel
  induction fuel with
  | zero =>
    intro l cps h
    match l with
    | [] =>
      have h' : some ([] : List Nat) = some cps := h
      injection h' with h''
      subst h''
      rfl
    | b :: rest => exact Option.noConfusion h
  | succ n ih =>
    intro l cps h
    match l with
    | [] =>
      have h' : some ([] : List Nat) = some cps := h
      injection h' with h''
      subst h''
      rfl
    | b :: rest =>
      simp only [utf8DecodeLoop] at h
      cases hone : utf8DecodeOne (b :: rest) with
      | none =>
        rw [hone] at h
        exact Option.noConfusion h
      | some pr =>
        obtain ⟨cp, r⟩ := pr
        rw [hone] at h
        simp only [Option.map_eq_some'] at h
        obtain ⟨cs, hdec, rfl⟩ := h
        have henc := utf8DecodeOne_encodes hone
        calc utf8Encode (cp :: cs)
            = utf8EncodeChar cp ++ utf8Encode cs := by simp [utf8Encode]
          _ = utf8EncodeChar cp ++ r := by rw [ih r cs hdec]
          _ = b :: rest := henc

/-- A successful `utf8Decode?` re-encodes to the original bytes: the decoded
string carries exactly the bytes read from the upstream. -/
theorem utf8_encode_decode (l cps : List Nat) (h : utf8Decode? l = some cps) :
    utf8Encode cps = l :=
  utf8DecodeLoop_encode l.length l cps h

/-- Claim C9: in the response phase of every relay iteration, if the bytes
read from the upstream are not valid UTF-8 then `read_to_string` fails and the
proxy writes `HTTP/1.1 502 Bad Gateway\r\n\r\n` to the client and terminates
the session; response bytes are relayed to the client only when they form
valid UTF-8 text, in which case the relayed bytes are exactly the bytes
read. -/
theorem invalid_utf8_502_valid_relayed (bytes : List Nat) :
    (utf8Decode? bytes = none → forward_upstream_response bytes = .sent502Terminated) ∧
    (∀ out, forward_upstream_response bytes = .relayedToClient out →
      (∃ cps, utf8Decode? bytes = some cps) ∧ out = bytes) := by
  constructor
  · intro h
    simp [forward_upstream_response, read_to_string, h]
  · intro out h
    unfold forward_upstream_response read_to_string at h
    cases hdec : utf8Decode? bytes with
    | none =>
      rw [hdec] at h
      exact RelayOutcome.noConfusion h
    | some cps =>
      rw [hdec] at h
      injection h with h'
      subst h'
      exact ⟨⟨cps, rfl⟩, utf8_encode_decode bytes cps hdec⟩

/-- Witness for C9: the concrete invalid byte pair `C3 28` yields the 502 and
termination; a concrete valid ASCII response is relayed byte-for-byte. -/
theorem invalid_utf8_502_valid_relayed_witness :
    utf8Decode? [0xC3, 0x28] = none ∧
    forward_upstream_response [0xC3, 0x28] = .sent502Terminated ∧
    forward_upstream_response (strBytes "HTTP/1.1 200 OK\r\n\r\nok")
      = .relayedToClient (strBytes "HTTP/1.1 200 OK\r\n\r\nok") := by
  refine ⟨by decide, (invalid_utf8_502_valid_relayed [0xC3, 0x28]).1 (by decide), ?_⟩
  decide


end RustLB
